import Mathlib

/-!
# Student schedule service (`goProjem/dersProgrami.go`)

A shallow embedding of the schedule half of the service: the `Schedule` model,
the `schedules` table behind the `*gorm.DB` handle, and the three schedule
handlers registered in `initializeEcho` (`POST /schedule`, `GET /schedule/:day`,
`DELETE /schedule/:id`) together with `getSchedulesForDay`.

Conventions of the embedding.

* A `time.Time` value is a natural number (an instant counted in seconds); only
  equality and order of instants are used by the code under study.
* The table is the list of its rows in storage order plus the auto-increment
  counter of the primary key.
* Every database call takes an extra argument `fail : Option String`: `some msg`
  means that this call comes back with the storage error `msg`, `none` means that
  the database answers the statement.
* `c.Bind` is represented by its outcome (`none` when binding fails) and
  `time.Parse` is passed to the handlers as a function `layout → value → Option Time`.
* The path parameter of `DELETE /schedule/:id` is the string the handler passes on to
  gorm; what the database does with a string that is not a decimal number is a
  parameter `rawDelete` of the delete handler.
-/

set_option autoImplicit false

namespace DersProgrami

/-- A `time.Time` instant, in seconds. -/
abbrev Time := Nat

/-- The model struct `Schedule` (source lines 21-30). -/
structure Schedule where
  ID : Nat
  StudentID : Nat
  Day : Time
  StartTime : Time
  EndTime : Time
  State : String
  CreatedAt : Time
  UpdatedAt : Time
  deriving DecidableEq, Repr

/-- The anonymous struct `scheduleData` the body of `POST /schedule` is bound to
(source lines 92-98). -/
structure ScheduleData where
  StudentID : Nat
  Day : String
  StartTime : String
  EndTime : String
  State : String
  deriving DecidableEq, Repr

/-- Errors carried by `(*gorm.DB).Error`: `gorm.ErrRecordNotFound`, or a failure of
the storage layer with its message. -/
inductive DBError where
  | ErrRecordNotFound
  | storage (msg : String)
  deriving DecidableEq, Repr

/-- The `schedules` table: rows in storage order and the `AUTO_INCREMENT` counter. -/
structure DB where
  schedules : List Schedule
  nextID : Nat
  deriving DecidableEq, Repr

/-- What a handler hands to `c.JSON`. -/
inductive Body where
  | error (msg : String)
  | message (msg : String)
  | schedule (s : Schedule)
  | schedules (l : List Schedule)
  deriving DecidableEq, Repr

/-- An HTTP answer: status code and JSON payload. -/
structure Response where
  status : Nat
  body : Body
  deriving DecidableEq, Repr

def StatusOK : Nat := 200
def StatusBadRequest : Nat := 400
def StatusConflict : Nat := 409
def StatusInternalServerError : Nat := 500

/-- The layout string of the calendar day. -/
def layoutDay : String := "2006-01-02"

/-- The layout string of the clock time. -/
def layoutClock : String := "15:04:05"

/-- The `WHERE` clause of the conflict query (source line 118):
`student_id = ? AND day = ? AND ((start_time BETWEEN ? AND ?) OR (end_time BETWEEN ? AND ?))`
with the arguments `studentID, day, startTime, endTime, startTime, endTime`.
`x BETWEEN a AND b` is `a <= x AND x <= b`. -/
def conflictWhere (studentID : Nat) (day startTime endTime : Time) (r : Schedule) : Bool :=
  decide (r.StudentID = studentID) && decide (r.Day = day) &&
    ((decide (startTime ≤ r.StartTime) && decide (r.StartTime ≤ endTime)) ||
     (decide (startTime ≤ r.EndTime) && decide (r.EndTime ≤ endTime)))

/-- The row with the least primary key among `rows` (`ORDER BY id LIMIT 1`); on equal
keys the earlier row wins. -/
def firstByID : List Schedule → Option Schedule
  | [] => none
  | r :: rs =>
    match firstByID rs with
    | none => some r
    | some m => if r.ID ≤ m.ID then some r else some m

/-- Model of `db.Where(cond).First(&dest).Error`: the matching row with the least
primary key, `ErrRecordNotFound` when no row matches. -/
def DB.First (db : DB) (fail : Option String) (cond : Schedule → Bool) :
    Except DBError Schedule :=
  match fail with
  | some msg => .error (.storage msg)
  | none =>
    match firstByID (db.schedules.filter cond) with
    | some r => .ok r
    | none => .error .ErrRecordNotFound

/-- Model of `db.Where(cond).Find(&dest)`: all matching rows in storage order; no match
is an empty slice and no error. -/
def DB.Find (db : DB) (fail : Option String) (cond : Schedule → Bool) :
    Except DBError (List Schedule) :=
  match fail with
  | some msg => .error (.storage msg)
  | none => .ok (db.schedules.filter cond)

/-- Model of `db.Create(schedule)` for a value whose `ID` is zero, as the handler builds
it: the row receives the next auto-increment key and the creation timestamps, and is
appended to the table. -/
def DB.Create (db : DB) (fail : Option String) (now : Time) (s : Schedule) :
    Except DBError (DB × Schedule) :=
  match fail with
  | some msg => .error (.storage msg)
  | none =>
    let row : Schedule := { s with ID := db.nextID, CreatedAt := now, UpdatedAt := now }
    .ok ({ schedules := db.schedules ++ [row], nextID := db.nextID + 1 }, row)

/-- Value of a decimal digit. -/
def digitVal (c : Char) : Option Nat :=
  if c.isDigit then some (c.toNat - 48) else none

/-- Value of the digits read so far followed by `cs`; `none` when `cs` holds a character
that is not a decimal digit. -/
def decimalValueFrom : Nat → List Char → Option Nat
  | acc, [] => some acc
  | acc, c :: cs =>
    match digitVal c with
    | some d => decimalValueFrom (10 * acc + d) cs
    | none => none

/-- Value of a non-empty string of decimal digits; `none` for any other string. -/
def decimalValue : List Char → Option Nat
  | [] => none
  | c :: cs => decimalValueFrom 0 (c :: cs)

/-- The largest `int` of a 64-bit platform, the bound of `strconv.Atoi`. -/
def maxInt : Nat := 9223372036854775807

/-- Model of `db.Delete(&Schedule{}, id)` where `id` is the string `c.Param("id")`
(source line 164). gorm takes a string condition for a primary key only when
`strconv.Atoi` accepts it, and otherwise hands the string to the database as the `WHERE`
condition itself.

* `id` is a string of decimal digits whose value fits an `int`: `DELETE ... WHERE id = ?`;
  deleting no row is not an error.
* `id` is a string of decimal digits whose value does not fit an `int`: the statement is
  `DELETE ... WHERE <id>`, a non-zero number, true of every row.
* any other string: `rawDelete id` is what the database makes of the statement gorm
  builds, an error message or the test selecting the rows it deletes. -/
def DB.Delete (rawDelete : String → Except String (Schedule → Bool)) (db : DB)
    (fail : Option String) (id : String) : Except DBError DB :=
  match fail with
  | some msg => .error (.storage msg)
  | none =>
    match decimalValue id.toList with
    | some n =>
      if n ≤ maxInt then
        .ok { db with schedules := db.schedules.filter (fun r => !decide (r.ID = n)) }
      else
        .ok { db with schedules := [] }
    | none =>
      match rawDelete id with
      | .error msg => .error (.storage msg)
      | .ok sel => .ok { db with schedules := db.schedules.filter (fun r => !sel r) }

/-- The handler of `POST /schedule` (source lines 91-133). `body` is the outcome of
`c.Bind`, `lookupFail` and `createFail` are the storage errors of the two database
calls, `now` is the clock at insertion. Returns the table afterwards and the answer. -/
def handlePostSchedule (parse : String → String → Option Time) (db : DB)
    (lookupFail createFail : Option String) (now : Time) (body : Option ScheduleData) :
    DB × Response :=
  match body with
  | none => (db, ⟨StatusBadRequest, .error "Geçersiz istek verisi"⟩)
  | some scheduleData =>
    match parse layoutDay scheduleData.Day with
    | none => (db, ⟨StatusBadRequest, .error "Geçersiz tarih formatı"⟩)
    | some day =>
      match parse layoutClock scheduleData.StartTime with
      | none => (db, ⟨StatusBadRequest, .error "Geçersiz başlangıç zamanı formatı"⟩)
      | some startTime =>
        match parse layoutClock scheduleData.EndTime with
        | none => (db, ⟨StatusBadRequest, .error "Geçersiz bitiş zamanı formatı"⟩)
        | some endTime =>
          match db.First lookupFail (conflictWhere scheduleData.StudentID day startTime endTime) with
          | .ok _ =>
            (db, ⟨StatusConflict, .error "Belirtilen zaman aralığında zaten bir plan var"⟩)
          | .error _ =>
            let schedule : Schedule :=
              { ID := 0, StudentID := scheduleData.StudentID, Day := day,
                StartTime := startTime, EndTime := endTime, State := scheduleData.State,
                CreatedAt := 0, UpdatedAt := 0 }
            match db.Create createFail now schedule with
            | .error _ =>
              (db, ⟨StatusInternalServerError, .error "Ders programı oluşturulamadı"⟩)
            | .ok (db', created) => (db', ⟨StatusOK, .schedule created⟩)

/-- The function `getSchedulesForDay` (source lines 185-192). -/
def getSchedulesForDay (db : DB) (fail : Option String) (day : Time) :
    Except DBError (List Schedule) :=
  match db.Find fail (fun r => decide (r.Day = day)) with
  | .error e => .error e
  | .ok schedules => .ok schedules

/-- The handler of `GET /schedule/:day` (source lines 135-147). -/
def handleGetSchedule (parse : String → String → Option Time) (db : DB)
    (fail : Option String) (dayString : String) : DB × Response :=
  match parse layoutDay dayString with
  | none => (db, ⟨StatusBadRequest, .error "Geçersiz tarih formatı"⟩)
  | some day =>
    match getSchedulesForDay db fail day with
    | .error _ => (db, ⟨StatusInternalServerError, .error "Ders programları alınamadı"⟩)
    | .ok schedules => (db, ⟨StatusOK, .schedules schedules⟩)

/-- The handler of `DELETE /schedule/:id` (source lines 163-168); `id` is the path
parameter `c.Param("id")` as the handler receives it. -/
def handleDeleteSchedule (rawDelete : String → Except String (Schedule → Bool)) (db : DB)
    (fail : Option String) (id : String) : DB × Response :=
  match db.Delete rawDelete fail id with
  | .error _ => (db, ⟨StatusInternalServerError, .error "Ders programı silinemedi"⟩)
  | .ok db' => (db', ⟨StatusOK, .message "Ders programı başarıyla silindi"⟩)

/-! ### A concrete `time.Parse` for the two layouts and the client of `postSchedule` -/

/-- Value of a two-digit field. -/
def twoDigits (a b : Char) : Option Nat :=
  match digitVal a, digitVal b with
  | some x, some y => some (10 * x + y)
  | _, _ => none

/-- Value of a four-digit field. -/
def fourDigits (a b c d : Char) : Option Nat :=
  match twoDigits a b, twoDigits c d with
  | some x, some y => some (100 * x + y)
  | _, _ => none

/-- Gregorian leap years. -/
def isLeap (y : Nat) : Bool :=
  y % 4 == 0 && (y % 100 != 0 || y % 400 == 0)

/-- Number of days of month `m` (1-12) in year `y`; `0` for any other `m`. -/
def daysIn (y m : Nat) : Nat :=
  match m with
  | 1 => 31 | 2 => if isLeap y then 29 else 28 | 3 => 31 | 4 => 30 | 5 => 31 | 6 => 30
  | 7 => 31 | 8 => 31 | 9 => 30 | 10 => 31 | 11 => 30 | 12 => 31 | _ => 0

/-- Days from 0000-01-01 to the first day of year `y`. -/
def daysBeforeYear (y : Nat) : Nat :=
  365 * y + (y + 3) / 4 - (y + 99) / 100 + (y + 399) / 400

/-- Days from the first day of year `y` to the first day of its month `m`. -/
def daysBeforeMonth (y m : Nat) : Nat :=
  ((List.range (m - 1)).map (fun i => daysIn y (i + 1))).sum

/-- Instant of `YYYY-MM-DD` at midnight, in seconds from 0000-01-01 00:00:00. -/
def parseDay : List Char → Option Time
  | [y1, y2, y3, y4, '-', m1, m2, '-', d1, d2] =>
    match fourDigits y1 y2 y3 y4, twoDigits m1 m2, twoDigits d1 d2 with
    | some y, some m, some d =>
      if 1 ≤ d ∧ d ≤ daysIn y m then
        some ((daysBeforeYear y + daysBeforeMonth y m + (d - 1)) * 86400)
      else none
    | _, _, _ => none
  | _ => none

/-- Instant of `HH:MM:SS` on 0000-01-01, the date `time.Parse` gives to a value
without date fields. -/
def parseClock : List Char → Option Time
  | [h1, h2, ':', m1, m2, ':', s1, s2] =>
    match twoDigits h1 h2, twoDigits m1 m2, twoDigits s1 s2 with
    | some h, some m, some s =>
      if h < 24 ∧ m < 60 ∧ s < 60 then some (h * 3600 + m * 60 + s) else none
    | _, _, _ => none
  | _ => none

/-- The call `time.Parse(layout, value)` for the two layouts of the service, on values
written with all digits (`2024-06-01`, `10:00:00`); the instant is counted in seconds
from 0000-01-01 00:00:00. -/
def timeParse (layout value : String) : Option Time :=
  if layout = layoutDay then parseDay value.toList
  else if layout = layoutClock then parseClock value.toList
  else none

/-- The data the client function `postSchedule` sends (source lines 199-205). -/
def postScheduleData : ScheduleData :=
  { StudentID := 123, Day := "2024-06-01", StartTime := "10:00:00",
    EndTime := "12:00:00", State := "planlanıyor" }

/-- A freshly migrated, empty table. -/
def emptyDB : DB := { schedules := [], nextID := 1 }

/-! ### Vocabulary of the specification -/

/-- Two rows belong to the same student and the same calendar day. -/
def sameStudentDay (a b : Schedule) : Prop :=
  a.StudentID = b.StudentID ∧ a.Day = b.Day

/-- The half-open windows `[s1, e1)` and `[s2, e2)` overlap. -/
def overlapsHalfOpen (s1 e1 s2 e2 : Time) : Prop :=
  s1 < e2 ∧ s2 < e1

/-- No two distinct positions of the table hold rows of the same student on the same
day with overlapping half-open windows. -/
def NoOverlap (rows : List Schedule) : Prop :=
  rows.Pairwise (fun a b =>
    sameStudentDay a b → ¬ overlapsHalfOpen a.StartTime a.EndTime b.StartTime b.EndTime)

/-- Every row starts before it ends. -/
def WellFormedRows (rows : List Schedule) : Prop :=
  ∀ r ∈ rows, r.StartTime < r.EndTime

instance (a b : Schedule) : Decidable (sameStudentDay a b) := by
  unfold sameStudentDay; infer_instance

instance (s1 e1 s2 e2 : Time) : Decidable (overlapsHalfOpen s1 e1 s2 e2) := by
  unfold overlapsHalfOpen; infer_instance

instance (rows : List Schedule) : Decidable (NoOverlap rows) := by
  unfold NoOverlap; infer_instance

instance (rows : List Schedule) : Decidable (WellFormedRows rows) := by
  unfold WellFormedRows; infer_instance

/-- The table after the client of `postSchedule` has posted to the empty table. -/
def seededDB : DB :=
  (handlePostSchedule timeParse emptyDB none none 0 (some postScheduleData)).1


/-- The table reached from the empty one by posting 10:00:00-14:00:00 and then
11:00:00-12:00:00 for student 123 on 2024-06-01. -/
def nestedDB : DB :=
  (handlePostSchedule timeParse
    (handlePostSchedule timeParse emptyDB none none 0
      (some { postScheduleData with EndTime := "14:00:00" })).1
    none none 0
    (some { postScheduleData with StartTime := "11:00:00" })).1

/-! ### Auxiliary facts about the database model -/

theorem firstByID_eq_none_iff (l : List Schedule) : firstByID l = none ↔ l = [] := by
  cases l with
  | nil => simp [firstByID]
  | cons r rs =>
    simp only [firstByID]
    cases firstByID rs with
    | none => simp
    | some m => by_cases h : r.ID ≤ m.ID <;> simp [h]

theorem firstByID_mem (l : List Schedule) (r : Schedule) (h : firstByID l = some r) :
    r ∈ l := by
  induction l generalizing r with
  | nil => simp [firstByID] at h
  | cons a as ih =>
    simp only [firstByID] at h
    cases hf : firstByID as with
    | none =>
      rw [hf] at h
      simp only [Option.some.injEq] at h
      simp [h]
    | some m =>
      rw [hf] at h
      by_cases hle : a.ID ≤ m.ID
      · simp only [hle, if_true, Option.some.injEq] at h
        simp [h]
      · simp only [hle, if_false, Option.some.injEq] at h
        subst h
        exact List.mem_cons_of_mem _ (ih _ hf)

theorem conflictWhere_iff (studentID : Nat) (day startTime endTime : Time) (r : Schedule) :
    conflictWhere studentID day startTime endTime r = true ↔
      r.StudentID = studentID ∧ r.Day = day ∧
        ((startTime ≤ r.StartTime ∧ r.StartTime ≤ endTime) ∨
         (startTime ≤ r.EndTime ∧ r.EndTime ≤ endTime)) := by
  simp [conflictWhere, and_assoc]

theorem First_ok_iff (db : DB) (cond : Schedule → Bool) :
    (∃ r, db.First none cond = .ok r) ↔ ∃ r ∈ db.schedules, cond r = true := by
  constructor
  · rintro ⟨r, h⟩
    simp only [DB.First] at h
    cases hf : firstByID (db.schedules.filter cond) with
    | none => rw [hf] at h; cases h
    | some m =>
      have hm := firstByID_mem _ _ hf
      rw [List.mem_filter] at hm
      exact ⟨m, hm.1, hm.2⟩
  · rintro ⟨r, hr, hc⟩
    simp only [DB.First]
    cases hf : firstByID (db.schedules.filter cond) with
    | none =>
      rw [firstByID_eq_none_iff] at hf
      have : r ∈ db.schedules.filter cond := List.mem_filter.mpr ⟨hr, hc⟩
      rw [hf] at this
      cases this
    | some m => exact ⟨m, rfl⟩

theorem First_notFound_iff (db : DB) (cond : Schedule → Bool) :
    db.First none cond = .error .ErrRecordNotFound ↔ ∀ r ∈ db.schedules, cond r = false := by
  constructor
  · intro h r hr
    by_contra hc
    have hc' : cond r = true := by simpa using hc
    obtain ⟨m, hm⟩ := (First_ok_iff db cond).mpr ⟨r, hr, hc'⟩
    rw [hm] at h
    cases h
  · intro h
    simp only [DB.First]
    cases hf : firstByID (db.schedules.filter cond) with
    | none => rfl
    | some m =>
      have hm := firstByID_mem _ _ hf
      rw [List.mem_filter] at hm
      rw [h m hm.1] at hm
      exact absurd hm.2 (by simp)

/-- With a body that binds and fields that parse, a conflict lookup that finds a row
ends the handler with 409 and the table as it was. -/
theorem post_of_lookup_ok (parse : String → String → Option Time) (db : DB)
    (lookupFail createFail : Option String) (now : Time) (d : ScheduleData)
    (day startTime endTime : Time) (row : Schedule)
    (hd : parse layoutDay d.Day = some day)
    (hs : parse layoutClock d.StartTime = some startTime)
    (he : parse layoutClock d.EndTime = some endTime)
    (hl : db.First lookupFail (conflictWhere d.StudentID day startTime endTime) = .ok row) :
    handlePostSchedule parse db lookupFail createFail now (some d) =
      (db, ⟨StatusConflict, .error "Belirtilen zaman aralığında zaten bir plan var"⟩) := by
  simp [handlePostSchedule, hd, hs, he, hl]

/-- With a body that binds and fields that parse, a conflict lookup that comes back
with any error is followed by the insertion. -/
theorem post_of_lookup_error (parse : String → String → Option Time) (db : DB)
    (lookupFail : Option String) (now : Time) (d : ScheduleData)
    (day startTime endTime : Time) (e : DBError)
    (hd : parse layoutDay d.Day = some day)
    (hs : parse layoutClock d.StartTime = some startTime)
    (he : parse layoutClock d.EndTime = some endTime)
    (hl : db.First lookupFail (conflictWhere d.StudentID day startTime endTime) = .error e) :
    handlePostSchedule parse db lookupFail none now (some d) =
      ({ schedules := db.schedules ++
            [{ ID := db.nextID, StudentID := d.StudentID, Day := day, StartTime := startTime,
               EndTime := endTime, State := d.State, CreatedAt := now, UpdatedAt := now }],
         nextID := db.nextID + 1 },
       ⟨StatusOK, .schedule
            { ID := db.nextID, StudentID := d.StudentID, Day := day, StartTime := startTime,
              EndTime := endTime, State := d.State, CreatedAt := now, UpdatedAt := now }⟩) := by
  simp [handlePostSchedule, hd, hs, he, hl, DB.Create]

/-- The handler never answers 409 unless the conflict lookup returned a row. -/
theorem post_conflict_only_of_lookup_ok (parse : String → String → Option Time) (db : DB)
    (lookupFail createFail : Option String) (now : Time) (d : ScheduleData)
    (day startTime endTime : Time) (e : DBError)
    (hd : parse layoutDay d.Day = some day)
    (hs : parse layoutClock d.StartTime = some startTime)
    (he : parse layoutClock d.EndTime = some endTime)
    (hl : db.First lookupFail (conflictWhere d.StudentID day startTime endTime) = .error e) :
    (handlePostSchedule parse db lookupFail createFail now (some d)).2.status ≠
      StatusConflict := by
  cases createFail <;>
    simp [handlePostSchedule, hd, hs, he, hl, DB.Create, StatusConflict, StatusOK,
      StatusInternalServerError]

/-! ### The conflict check and the invariant of the table -/

/-- Claim C1 (code defect). From the table holding only 10:00:00-12:00:00 for student
123 on 2024-06-01, which has well-formed rows and no overlap, the request
10:30:00-11:30:00 for the same student and day has start before end, is answered 200,
and the table afterwards holds two overlapping rows of that student on that day. -/
theorem post_nested_window_breaks_no_overlap :
    WellFormedRows seededDB.schedules ∧ NoOverlap seededDB.schedules ∧
    timeParse layoutClock "10:30:00" = some 37800 ∧
    timeParse layoutClock "11:30:00" = some 41400 ∧
    (handlePostSchedule timeParse seededDB none none 0
      (some { postScheduleData with StartTime := "10:30:00", EndTime := "11:30:00" })).2.status
        = StatusOK ∧
    (handlePostSchedule timeParse seededDB none none 0
      (some { postScheduleData with StartTime := "10:30:00", EndTime := "11:30:00" })).1.schedules
        = seededDB.schedules ++
            [{ ID := 2, StudentID := 123, Day := 63884419200, StartTime := 37800,
               EndTime := 41400, State := "planlanıyor", CreatedAt := 0, UpdatedAt := 0 }] ∧
    ¬ NoOverlap (handlePostSchedule timeParse seededDB none none 0
      (some { postScheduleData with StartTime := "10:30:00", EndTime := "11:30:00" })).1.schedules := by
  decide

/-- Claim C2, refuted as stated. The table holds only 10:00:00-12:00:00 for student 123
on 2024-06-01; the candidate 12:00:00-13:00:00 has start before end and its half-open
window overlaps no stored window of that student and day, yet the conflict lookup
returns the stored row and the handler answers 409. -/
theorem adjacent_window_reported :
    (43200 : Time) < 46800 ∧
    (∀ r ∈ seededDB.schedules, r.StudentID = 123 → r.Day = 63884419200 →
      r.StartTime < r.EndTime ∧
        ¬ overlapsHalfOpen r.StartTime r.EndTime 43200 46800) ∧
    seededDB.First none (conflictWhere 123 63884419200 43200 46800) =
      .ok { ID := 1, StudentID := 123, Day := 63884419200, StartTime := 36000,
            EndTime := 43200, State := "planlanıyor", CreatedAt := 0, UpdatedAt := 0 } ∧
    handlePostSchedule timeParse seededDB none none 0
      (some { postScheduleData with StartTime := "12:00:00", EndTime := "13:00:00" }) =
      (seededDB, ⟨StatusConflict, .error "Belirtilen zaman aralığında zaten bir plan var"⟩) := by
  refine ⟨by decide, by decide, rfl, by decide⟩

/-- Claim C2, amended. If start is before end and every stored schedule of the student on
the day has start before end and lies entirely before or entirely after the candidate
with no common endpoint (its end is before the candidate start, or its start is after
the candidate end), then the conflict lookup finds no row and the handler does not
answer 409. -/
theorem no_conflict_of_separated (parse : String → String → Option Time) (db : DB)
    (createFail : Option String) (now : Time) (d : ScheduleData)
    (day startTime endTime : Time)
    (hd : parse layoutDay d.Day = some day)
    (hs : parse layoutClock d.StartTime = some startTime)
    (he : parse layoutClock d.EndTime = some endTime)
    (_hse : startTime < endTime)
    (hsep : ∀ r ∈ db.schedules, r.StudentID = d.StudentID → r.Day = day →
      r.StartTime < r.EndTime ∧ (r.EndTime < startTime ∨ endTime < r.StartTime)) :
    db.First none (conflictWhere d.StudentID day startTime endTime) =
        .error .ErrRecordNotFound ∧
    (handlePostSchedule parse db none createFail now (some d)).2.status ≠ StatusConflict := by
  have hnf : db.First none (conflictWhere d.StudentID day startTime endTime) =
      .error .ErrRecordNotFound := by
    rw [First_notFound_iff]
    intro r hr
    by_contra hc
    have hc' : conflictWhere d.StudentID day startTime endTime r = true := by simpa using hc
    rw [conflictWhere_iff] at hc'
    obtain ⟨h1, h2, h3⟩ := hc'
    obtain ⟨hwf, hdis⟩ := hsep r hr h1 h2
    simp only [Time] at hwf hdis h3
    omega
  exact ⟨hnf, post_conflict_only_of_lookup_ok parse db none createFail now d day startTime
    endTime _ hd hs he hnf⟩

theorem no_conflict_of_separated_witness :
    (46800 : Time) < 50400 ∧
    (∀ r ∈ seededDB.schedules, r.StudentID = 123 → r.Day = 63884419200 →
      r.StartTime < r.EndTime ∧ (r.EndTime < 46800 ∨ 50400 < r.StartTime)) ∧
    (seededDB.First none (conflictWhere 123 63884419200 46800 50400) =
        .error .ErrRecordNotFound ∧
     (handlePostSchedule timeParse seededDB none none 0
        (some { postScheduleData with StartTime := "13:00:00", EndTime := "14:00:00" })).2.status
        ≠ StatusConflict) :=
  ⟨by decide, by decide,
   no_conflict_of_separated timeParse seededDB none 0
     { postScheduleData with StartTime := "13:00:00", EndTime := "14:00:00" }
     63884419200 46800 50400 (by decide) (by decide) (by decide) (by decide) (by decide)⟩

/-- Claim C3 (code defect). The table holds the row 10:00:00-12:00:00 of student 123 on
2024-06-01; the candidate 10:15:00-11:45:00 of that student and day has both its start
and its end strictly inside that row, yet the conflict lookup finds no row and the
handler answers 200 and inserts the candidate. -/
theorem inner_window_not_reported :
    (∃ r ∈ seededDB.schedules, r.StudentID = 123 ∧ r.Day = 63884419200 ∧
      r.StartTime < r.EndTime ∧
      (r.StartTime < 36900 ∧ 36900 < r.EndTime) ∧ (r.StartTime < 42300 ∧ 42300 < r.EndTime)) ∧
    timeParse layoutClock "10:15:00" = some 36900 ∧
    timeParse layoutClock "11:45:00" = some 42300 ∧
    seededDB.First none (conflictWhere 123 63884419200 36900 42300) =
      .error .ErrRecordNotFound ∧
    (handlePostSchedule timeParse seededDB none none 0
      (some { postScheduleData with StartTime := "10:15:00", EndTime := "11:45:00" })).2.status
        = StatusOK ∧
    (handlePostSchedule timeParse seededDB none none 0
      (some { postScheduleData with StartTime := "10:15:00", EndTime := "11:45:00" })).1.schedules.length
        = 2 := by
  refine ⟨by decide, by decide, by decide, rfl, by decide, by decide⟩

/-- Claim C4, refuted as stated. The only schedule of student 123 on 2024-06-01 is
10:00:00-12:00:00; the candidate 09:00:00-13:00:00 contains it with neither candidate
endpoint inside it, and the handler answers 409 and leaves the table as it was. -/
theorem containing_window_is_reported :
    (∀ r ∈ seededDB.schedules, r.StudentID = 123 → r.Day = 63884419200 →
      r.StartTime = 36000 ∧ r.EndTime = 43200) ∧
    seededDB.schedules.length = 1 ∧
    (32400 : Time) < 36000 ∧ (43200 : Time) < 46800 ∧
    timeParse layoutClock "09:00:00" = some 32400 ∧
    timeParse layoutClock "13:00:00" = some 46800 ∧
    handlePostSchedule timeParse seededDB none none 0
      (some { postScheduleData with StartTime := "09:00:00", EndTime := "13:00:00" }) =
      (seededDB, ⟨StatusConflict, .error "Belirtilen zaman aralığında zaten bir plan var"⟩) := by
  decide

/-- Claim C4, amended. If the only schedule of student s on day d is a row r with start
before end, and the candidate contains r with neither candidate endpoint inside it
(start before the start of r, end after the end of r), then the conflict lookup, when
the database answers it, returns a row: the handler answers 409 and inserts nothing. -/
theorem containing_window_conflict (parse : String → String → Option Time) (db : DB)
    (createFail : Option String) (now : Time) (d : ScheduleData)
    (day startTime endTime : Time) (r : Schedule)
    (hd : parse layoutDay d.Day = some day)
    (hs : parse layoutClock d.StartTime = some startTime)
    (he : parse layoutClock d.EndTime = some endTime)
    (hr : r ∈ db.schedules) (hsid : r.StudentID = d.StudentID) (hday : r.Day = day)
    (_honly : ∀ x ∈ db.schedules, x.StudentID = d.StudentID → x.Day = day → x = r)
    (hwf : r.StartTime < r.EndTime)
    (h1 : startTime < r.StartTime) (h2 : r.EndTime < endTime) :
    (∃ row, db.First none (conflictWhere d.StudentID day startTime endTime) = .ok row) ∧
    handlePostSchedule parse db none createFail now (some d) =
      (db, ⟨StatusConflict, .error "Belirtilen zaman aralığında zaten bir plan var"⟩) := by
  have hex : ∃ row, db.First none (conflictWhere d.StudentID day startTime endTime) = .ok row := by
    rw [First_ok_iff]
    refine ⟨r, hr, ?_⟩
    rw [conflictWhere_iff]
    simp only [Time] at hwf h1 h2
    exact ⟨hsid, hday, Or.inl ⟨Nat.le_of_lt h1, Nat.le_of_lt (Nat.lt_trans hwf h2)⟩⟩
  obtain ⟨row, hrow⟩ := hex
  exact ⟨⟨row, hrow⟩, post_of_lookup_ok parse db none createFail now d day startTime endTime
    row hd hs he hrow⟩

theorem containing_window_conflict_witness :
    (∃ row, seededDB.First none (conflictWhere 123 63884419200 32400 46800) = .ok row) ∧
    handlePostSchedule timeParse seededDB none none 7
      (some { postScheduleData with StartTime := "09:00:00", EndTime := "13:00:00" }) =
      (seededDB, ⟨StatusConflict, .error "Belirtilen zaman aralığında zaten bir plan var"⟩) :=
  containing_window_conflict timeParse seededDB none 7
    { postScheduleData with StartTime := "09:00:00", EndTime := "13:00:00" }
    63884419200 32400 46800
    { ID := 1, StudentID := 123, Day := 63884419200, StartTime := 36000,
      EndTime := 43200, State := "planlanıyor", CreatedAt := 0, UpdatedAt := 0 }
    (by decide) (by decide) (by decide) (by decide) (by decide) (by decide) (by decide)
    (by decide) (by decide) (by decide)

/-! ### Outcomes of `POST /schedule` -/

/-- Claim C5. For every table and every request whose body binds and whose day and times
parse: if the conflict lookup finds a row, the handler answers 409 with the conflict
message and the table after the request is the table before it. -/
theorem post_conflict_persists_nothing (parse : String → String → Option Time) (db : DB)
    (lookupFail createFail : Option String) (now : Time) (d : ScheduleData)
    (day startTime endTime : Time) (row : Schedule)
    (hd : parse layoutDay d.Day = some day)
    (hs : parse layoutClock d.StartTime = some startTime)
    (he : parse layoutClock d.EndTime = some endTime)
    (hl : db.First lookupFail (conflictWhere d.StudentID day startTime endTime) = .ok row) :
    (handlePostSchedule parse db lookupFail createFail now (some d)).2 =
        ⟨StatusConflict, .error "Belirtilen zaman aralığında zaten bir plan var"⟩ ∧
    (handlePostSchedule parse db lookupFail createFail now (some d)).1 = db := by
  rw [post_of_lookup_ok parse db lookupFail createFail now d day startTime endTime row
    hd hs he hl]
  exact ⟨rfl, rfl⟩

theorem post_conflict_persists_nothing_witness :
    seededDB.First none (conflictWhere 123 63884419200 39600 46800) =
      .ok { ID := 1, StudentID := 123, Day := 63884419200, StartTime := 36000,
            EndTime := 43200, State := "planlanıyor", CreatedAt := 0, UpdatedAt := 0 } ∧
    ((handlePostSchedule timeParse seededDB none none 5
        (some { postScheduleData with StartTime := "11:00:00", EndTime := "13:00:00" })).2 =
        ⟨StatusConflict, .error "Belirtilen zaman aralığında zaten bir plan var"⟩ ∧
     (handlePostSchedule timeParse seededDB none none 5
        (some { postScheduleData with StartTime := "11:00:00", EndTime := "13:00:00" })).1 =
        seededDB) :=
  ⟨rfl,
   post_conflict_persists_nothing timeParse seededDB none none 5
     { postScheduleData with StartTime := "11:00:00", EndTime := "13:00:00" }
     63884419200 39600 46800
     { ID := 1, StudentID := 123, Day := 63884419200, StartTime := 36000,
       EndTime := 43200, State := "planlanıyor", CreatedAt := 0, UpdatedAt := 0 }
     (by decide) (by decide) (by decide) rfl⟩

/-- Claim C6. The table whose only schedule is student 123, 2024-06-01, 10:00:00 to
12:00:00 (the one the client of `postSchedule` creates): a request for student 123 on
2024-06-01 from 11:00:00 to 13:00:00 is answered 409 and leaves the table as it was; a
request from 13:00:00 to 14:00:00 is answered 200 with the new row, and the table
afterwards is the old one followed by exactly that row. -/
theorem example_conflict_and_acceptance :
    seededDB =
      { schedules :=
          [{ ID := 1, StudentID := 123, Day := 63884419200, StartTime := 36000,
             EndTime := 43200, State := "planlanıyor", CreatedAt := 0, UpdatedAt := 0 }],
        nextID := 2 } ∧
    timeParse layoutDay "2024-06-01" = some 63884419200 ∧
    timeParse layoutClock "10:00:00" = some 36000 ∧
    timeParse layoutClock "12:00:00" = some 43200 ∧
    handlePostSchedule timeParse seededDB none none 9
      (some { StudentID := 123, Day := "2024-06-01", StartTime := "11:00:00",
              EndTime := "13:00:00", State := "planlanıyor" }) =
      (seededDB, ⟨StatusConflict, .error "Belirtilen zaman aralığında zaten bir plan var"⟩) ∧
    handlePostSchedule timeParse seededDB none none 9
      (some { StudentID := 123, Day := "2024-06-01", StartTime := "13:00:00",
              EndTime := "14:00:00", State := "planlanıyor" }) =
      ({ schedules := seededDB.schedules ++
           [{ ID := 2, StudentID := 123, Day := 63884419200, StartTime := 46800,
              EndTime := 50400, State := "planlanıyor", CreatedAt := 9, UpdatedAt := 9 }],
         nextID := 3 },
       ⟨StatusOK, .schedule
           { ID := 2, StudentID := 123, Day := 63884419200, StartTime := 46800,
             EndTime := 50400, State := "planlanıyor", CreatedAt := 9, UpdatedAt := 9 }⟩) := by
  decide

/-- Claim C7 (code defect). On the table holding 10:00:00-12:00:00 for student 123 on
2024-06-01, a request whose body binds and whose fields parse (11:00:00-13:00:00, same
student and day) meets a conflict lookup that fails with a storage error while the
insertion succeeds: the lookup result is a storage error, not `ErrRecordNotFound`, yet
the handler answers 200 and the row is in the table. -/
theorem lookup_failure_is_swallowed :
    seededDB.First (some "driver: bad connection")
        (conflictWhere 123 63884419200 39600 46800) =
      .error (.storage "driver: bad connection") ∧
    handlePostSchedule timeParse seededDB (some "driver: bad connection") none 9
      (some { postScheduleData with StartTime := "11:00:00", EndTime := "13:00:00" }) =
      ({ schedules := seededDB.schedules ++
           [{ ID := 2, StudentID := 123, Day := 63884419200, StartTime := 39600,
              EndTime := 46800, State := "planlanıyor", CreatedAt := 9, UpdatedAt := 9 }],
         nextID := 3 },
       ⟨StatusOK, .schedule
           { ID := 2, StudentID := 123, Day := 63884419200, StartTime := 39600,
             EndTime := 46800, State := "planlanıyor", CreatedAt := 9, UpdatedAt := 9 }⟩) := by
  refine ⟨rfl, by decide⟩

/-! ### `DELETE /schedule/:id` and `GET /schedule/:day` -/

/-- A path parameter made of decimal digits whose value fits an `int` and is the key of
no row: the delete handler answers 200 and the table is as it was. -/
theorem delete_absent_key (rawDelete : String → Except String (Schedule → Bool)) (db : DB)
    (id : String) (n : Nat) (hv : decimalValue id.toList = some n) (hn : n ≤ maxInt)
    (h : ∀ r ∈ db.schedules, r.ID ≠ n) :
    handleDeleteSchedule rawDelete db none id =
      (db, ⟨StatusOK, .message "Ders programı başarıyla silindi"⟩) := by
  have hf : db.schedules.filter (fun r => !decide (r.ID = n)) = db.schedules := by
    rw [List.filter_eq_self]
    intro r hr
    simp [h r hr]
  unfold handleDeleteSchedule DB.Delete
  simp only [hv]
  simp [hn, hf]

/-- Sending the same delete request a second time gives the table and the answer of the
first, whatever the path parameter. -/
theorem delete_twice (rawDelete : String → Except String (Schedule → Bool)) (db : DB)
    (id : String) :
    handleDeleteSchedule rawDelete (handleDeleteSchedule rawDelete db none id).1 none id =
      handleDeleteSchedule rawDelete db none id := by
  unfold handleDeleteSchedule DB.Delete
  cases hv : decimalValue id.toList with
  | some n =>
    by_cases hn : n ≤ maxInt
    · simp [hv, hn, List.filter_filter]
    · simp [hv, hn]
  | none =>
    cases hr : rawDelete id with
    | error msg => simp [hv, hr]
    | ok sel => simp [hv, hr, List.filter_filter]

/-- Claim C8 (code defect). The table holds one row, with key 1. The path parameter
9223372036854775808 is a number, the key of no row, and too large for `strconv.Atoi`:
whatever the database does with other strings, the delete handler answers 200 with the
success message and the table afterwards is empty, not the table before. -/
theorem delete_large_id_empties_table :
    seededDB.schedules.length = 1 ∧
    (∀ r ∈ seededDB.schedules, r.ID ≠ 9223372036854775808) ∧
    decimalValue "9223372036854775808".toList = some 9223372036854775808 ∧
    ¬ (9223372036854775808 ≤ maxInt) ∧
    (∀ rawDelete : String → Except String (Schedule → Bool),
      handleDeleteSchedule rawDelete seededDB none "9223372036854775808" =
        ({ seededDB with schedules := [] },
         ⟨StatusOK, .message "Ders programı başarıyla silindi"⟩)) ∧
    (∀ rawDelete : String → Except String (Schedule → Bool),
      (handleDeleteSchedule rawDelete seededDB none "9223372036854775808").1 ≠ seededDB) := by
  have hv : decimalValue "9223372036854775808".toList = some 9223372036854775808 := by
    decide
  have hn : ¬ (9223372036854775808 ≤ maxInt) := by decide
  have hrun : ∀ rawDelete : String → Except String (Schedule → Bool),
      handleDeleteSchedule rawDelete seededDB none "9223372036854775808" =
        ({ seededDB with schedules := [] },
         ⟨StatusOK, .message "Ders programı başarıyla silindi"⟩) := by
    intro rawDelete
    unfold handleDeleteSchedule DB.Delete
    simp only [hv]
    simp [hn]
  refine ⟨by decide, by decide, hv, hn, hrun, ?_⟩
  intro rawDelete
  rw [hrun rawDelete]
  decide

/-- Claim C9. When the database answers the query, `getSchedulesForDay` returns without
error exactly the stored rows whose day is the given day, whatever their student: the
result is the table filtered by the day, a sublist of the table in storage order, and a
row is in it exactly when it is stored with that day; when no row matches the result is
the empty list and not an error; and the handler that calls it leaves the table as it
was, whatever the outcome. -/
theorem getSchedulesForDay_spec (parse : String → String → Option Time) (db : DB)
    (fail : Option String) (day : Time) (dayString : String) :
    getSchedulesForDay db none day = .ok (db.schedules.filter (fun r => decide (r.Day = day))) ∧
    (db.schedules.filter (fun r => decide (r.Day = day))).Sublist db.schedules ∧
    (∀ r, r ∈ db.schedules.filter (fun r => decide (r.Day = day)) ↔
      r ∈ db.schedules ∧ r.Day = day) ∧
    ((∀ r ∈ db.schedules, r.Day ≠ day) → getSchedulesForDay db none day = .ok []) ∧
    (handleGetSchedule parse db fail dayString).1 = db ∧
    (parse layoutDay dayString = some day →
      (handleGetSchedule parse db none dayString).2 =
        ⟨StatusOK, .schedules (db.schedules.filter (fun r => decide (r.Day = day)))⟩) := by
  refine ⟨rfl, List.filter_sublist _, ?_, ?_, ?_, ?_⟩
  · intro r
    simp [List.mem_filter]
  · intro h
    have hf : db.schedules.filter (fun r => decide (r.Day = day)) = [] := by
      rw [List.filter_eq_nil_iff]
      intro r hr
      simp [h r hr]
    simp [getSchedulesForDay, DB.Find, hf]
  · unfold handleGetSchedule
    cases parse layoutDay dayString with
    | none => rfl
    | some d =>
      cases fail <;> simp [getSchedulesForDay, DB.Find]
  · intro h
    simp [handleGetSchedule, h, getSchedulesForDay, DB.Find]

theorem getSchedulesForDay_spec_witness :
    (∀ r ∈ nestedDB.schedules, r.Day ≠ 86400) ∧
    getSchedulesForDay nestedDB none 86400 = .ok [] ∧
    timeParse layoutDay "2024-06-01" = some 63884419200 ∧
    (handleGetSchedule timeParse nestedDB none "2024-06-01").2 =
      ⟨StatusOK, .schedules nestedDB.schedules⟩ :=
  ⟨by decide,
   (getSchedulesForDay_spec timeParse nestedDB none 86400 "0000-01-02").2.2.2.1 (by decide),
   by decide,
   ((getSchedulesForDay_spec timeParse nestedDB none 63884419200 "2024-06-01").2.2.2.2.2
      (by decide)).trans (by decide)⟩

/-! ### What the conflict query tests -/

/-- Claim C10, refuted as stated. The table holds 10:00:00-14:00:00 and 11:00:00-12:00:00
for student 123 on 2024-06-01. The candidate 10:30:00-13:00:00 lies strictly inside the
first window, yet the conflict lookup returns the second row and the handler answers
409. -/
theorem inner_window_reported_through_other_row :
    nestedDB.schedules =
      [{ ID := 1, StudentID := 123, Day := 63884419200, StartTime := 36000,
         EndTime := 50400, State := "planlanıyor", CreatedAt := 0, UpdatedAt := 0 },
       { ID := 2, StudentID := 123, Day := 63884419200, StartTime := 39600,
         EndTime := 43200, State := "planlanıyor", CreatedAt := 0, UpdatedAt := 0 }] ∧
    (∃ r ∈ nestedDB.schedules, r.StudentID = 123 ∧ r.Day = 63884419200 ∧
      r.StartTime < 37800 ∧ (37800 : Time) ≤ 46800 ∧ 46800 < r.EndTime) ∧
    nestedDB.First none (conflictWhere 123 63884419200 37800 46800) =
      .ok { ID := 2, StudentID := 123, Day := 63884419200, StartTime := 39600,
            EndTime := 43200, State := "planlanıyor", CreatedAt := 0, UpdatedAt := 0 } ∧
    handlePostSchedule timeParse nestedDB none none 0
      (some { postScheduleData with StartTime := "10:30:00", EndTime := "13:00:00" }) =
      (nestedDB, ⟨StatusConflict, .error "Belirtilen zaman aralığında zaten bir plan var"⟩) := by
  refine ⟨by decide, by decide, rfl, by decide⟩

/-- Claim C10, amended. When the database answers the lookup, the conflict check finds a
row, and the handler answers 409, if and only if the table holds a row of the same
student and day whose start lies in the closed range from the candidate start to the
candidate end or whose end lies in that range. The stored endpoints are tested against
the candidate range: a row that strictly contains the candidate does not satisfy the
query, so a candidate strictly inside every stored window of that student and day is
not reported, and a candidate whose start is after its end is never reported. -/
theorem conflict_check_characterisation (parse : String → String → Option Time) (db : DB)
    (createFail : Option String) (now : Time) (d : ScheduleData)
    (day startTime endTime : Time)
    (hd : parse layoutDay d.Day = some day)
    (hs : parse layoutClock d.StartTime = some startTime)
    (he : parse layoutClock d.EndTime = some endTime) :
    ((∃ row, db.First none (conflictWhere d.StudentID day startTime endTime) = .ok row) ↔
      ∃ r ∈ db.schedules, r.StudentID = d.StudentID ∧ r.Day = day ∧
        ((startTime ≤ r.StartTime ∧ r.StartTime ≤ endTime) ∨
         (startTime ≤ r.EndTime ∧ r.EndTime ≤ endTime))) ∧
    ((handlePostSchedule parse db none createFail now (some d)).2.status = StatusConflict ↔
      ∃ r ∈ db.schedules, r.StudentID = d.StudentID ∧ r.Day = day ∧
        ((startTime ≤ r.StartTime ∧ r.StartTime ≤ endTime) ∨
         (startTime ≤ r.EndTime ∧ r.EndTime ≤ endTime))) ∧
    (∀ r : Schedule, r.StartTime < startTime → startTime ≤ endTime → endTime < r.EndTime →
      conflictWhere d.StudentID day startTime endTime r = false) ∧
    ((∀ r ∈ db.schedules, r.StudentID = d.StudentID → r.Day = day →
        r.StartTime < startTime ∧ endTime < r.EndTime) →
      db.First none (conflictWhere d.StudentID day startTime endTime) =
        .error .ErrRecordNotFound) ∧
    (endTime < startTime →
      db.First none (conflictWhere d.StudentID day startTime endTime) =
        .error .ErrRecordNotFound) := by
  have hiff : (∃ row, db.First none (conflictWhere d.StudentID day startTime endTime) = .ok row) ↔
      ∃ r ∈ db.schedules, r.StudentID = d.StudentID ∧ r.Day = day ∧
        ((startTime ≤ r.StartTime ∧ r.StartTime ≤ endTime) ∨
         (startTime ≤ r.EndTime ∧ r.EndTime ≤ endTime)) := by
    rw [First_ok_iff]
    constructor
    · rintro ⟨r, hr, hc⟩
      exact ⟨r, hr, (conflictWhere_iff _ _ _ _ r).mp hc⟩
    · rintro ⟨r, hr, hc⟩
      exact ⟨r, hr, (conflictWhere_iff _ _ _ _ r).mpr hc⟩
  have hrow : ∀ r : Schedule, r.StartTime < startTime → endTime < r.EndTime →
      conflictWhere d.StudentID day startTime endTime r = false := by
    intro r h1 h2
    by_contra hc
    have hc' : conflictWhere d.StudentID day startTime endTime r = true := by simpa using hc
    rw [conflictWhere_iff] at hc'
    obtain ⟨_, _, h3⟩ := hc'
    simp only [Time] at h1 h2 h3
    omega
  refine ⟨hiff, ?_, fun r h1 _ h2 => hrow r h1 h2, ?_, ?_⟩
  · rw [← hiff]
    constructor
    · intro hst
      cases hl : db.First none (conflictWhere d.StudentID day startTime endTime) with
      | ok row => exact ⟨row, rfl⟩
      | error e =>
        exact absurd hst (post_conflict_only_of_lookup_ok parse db none createFail now d day
          startTime endTime e hd hs he hl)
    · rintro ⟨row, hl⟩
      rw [post_of_lookup_ok parse db none createFail now d day startTime endTime row hd hs he hl]
  · intro h
    rw [First_notFound_iff]
    intro r hr
    by_cases hsd : r.StudentID = d.StudentID ∧ r.Day = day
    · exact hrow r (h r hr hsd.1 hsd.2).1 (h r hr hsd.1 hsd.2).2
    · by_contra hc
      have hc' : conflictWhere d.StudentID day startTime endTime r = true := by simpa using hc
      rw [conflictWhere_iff] at hc'
      exact hsd ⟨hc'.1, hc'.2.1⟩
  · intro hlt
    rw [First_notFound_iff]
    intro r _
    by_contra hc
    have hc' : conflictWhere d.StudentID day startTime endTime r = true := by simpa using hc
    rw [conflictWhere_iff] at hc'
    obtain ⟨_, _, h3⟩ := hc'
    simp only [Time] at hlt h3
    omega

theorem conflict_check_characterisation_witness :
    (handlePostSchedule timeParse seededDB none none 0
        (some { postScheduleData with StartTime := "10:30:00", EndTime := "11:30:00" })).2.status
        ≠ StatusConflict ∧
    seededDB.First none (conflictWhere 123 63884419200 37800 41400) =
      .error .ErrRecordNotFound ∧
    seededDB.First none (conflictWhere 123 63884419200 46800 32400) =
      .error .ErrRecordNotFound :=
  ⟨fun h => by
      have := (conflict_check_characterisation timeParse seededDB none 0
        { postScheduleData with StartTime := "10:30:00", EndTime := "11:30:00" }
        63884419200 37800 41400 (by decide) (by decide) (by decide)).2.1.mp h
      revert this
      decide,
   (conflict_check_characterisation timeParse seededDB none 0
      { postScheduleData with StartTime := "10:30:00", EndTime := "11:30:00" }
      63884419200 37800 41400 (by decide) (by decide) (by decide)).2.2.2.1 (by decide),
   (conflict_check_characterisation timeParse seededDB none 0
      { postScheduleData with StartTime := "13:00:00", EndTime := "09:00:00" }
      63884419200 46800 32400 (by decide) (by decide) (by decide)).2.2.2.2 (by decide)⟩

end DersProgrami
